import Mathlib

/-!
Verification of the unified extraction pipeline in `main.py`
(`process_base64_file` and its per-format branches).

Modelling conventions (shallow embedding):
* Raw byte strings are `PyBytes := List Nat`.
* The format-parsing libraries (`base64`, `magic`, `pdfplumber`, `pdf2image`,
  `PIL`, `olefile`/`oletools`, `python-docx`, `pandas`) are black boxes from
  the pipeline's point of view; they are bundled as function fields of a
  `PyEnv` record.  A library call that can raise a Python exception is
  modelled with `Except String`; a call that cannot is a plain function.
  All fields are fixed (pure) functions, which models the deterministic
  behaviour the pipeline assumes of them.
* A Python `raise` escaping `process_base64_file` is modelled as
  `Except.error` of a `PyExc`; `PyExc.http` is FastAPI/Starlette's
  `HTTPException` (whose `str` form is `"<code>: <detail>"`), `PyExc.exc`
  is any other exception, carrying its `str` form.
* The inner `raise HTTPException(500, ...)` in the PDF branch happens
  inside the outer `try:` of `process_base64_file`, so it is caught by the
  outer `except Exception` and re-wrapped as `HTTPException(400,
  "Ocorreu um erro inesperado: " + str(e))`; the model reproduces this.
-/

/-- Decoded file contents (Python `bytes`). -/
abbrev PyBytes := List Nat

/-- An opaque handle for a `PIL.Image` object (its pixel contents never
matter to the pipeline, only the bytes `save` produces from it). -/
abbrev PILImage := Nat

/-- Mirror of the Pydantic `ImageData` model in `main.py`. -/
structure ImageData where
  original_mime_type : String
  image_base64_png : String
deriving DecidableEq

/-- Mirror of the Pydantic `TextBlock` / `ImageBlock` union in `main.py`:
`text` is `TextBlock` (type tag `bloco_texto`), `image` is `ImageBlock`
(type tag `bloco_imagem`); both carry `source_page : Optional[int]`. -/
inductive ContentBlock where
  | text (source_page : Option Nat) (content : String)
  | image (source_page : Option Nat) (content : ImageData)
deriving DecidableEq

/-- The `source_page` field common to both block variants. -/
def ContentBlock.source_page : ContentBlock → Option Nat
  | .text p _ => p
  | .image p _ => p

/-- The dict returned by `process_base64_file` (keys `status`,
`content_type`, `data`, `message`); `data` is either a block list or
Python `None`, modelled by `Option`. -/
structure ResultDict where
  status : String
  content_type : String
  data : Option (List ContentBlock)
  message : String
deriving DecidableEq

/-- A Python exception escaping `process_base64_file`: either a FastAPI
`HTTPException` (status code and detail) or some other exception carrying
its string form. -/
inductive PyExc where
  | http (status_code : Nat) (detail : String)
  | exc (msg : String)
deriving DecidableEq

/-- `str(e)` for a modelled exception; for `HTTPException`, Starlette
renders `"<status_code>: <detail>"`. -/
def pyExcStr : PyExc → String
  | .http status_code detail => toString status_code ++ ": " ++ detail
  | .exc msg => msg

/-- The result of `docx.Document(...)`: the paragraph texts (`para.text`),
the tables (`cell.text` per cell, per row), and the texts of the remaining
body elements (those that are neither `CT_P` nor `CT_Tbl`; the empty
string stands for a missing/`None` `text` attribute). -/
structure DocxDocument where
  paragraphs : List String
  tables : List (List (List String))
  specials : List String
deriving DecidableEq

/-- The black-box library surface used by `process_base64_file`.  Each
field models one library call site:
* `b64decode`    — `base64.b64decode` (raises on invalid input);
* `magic_from_buffer` — `magic.from_buffer(-, mime=True)` (total);
* `b64encode`    — `base64.b64encode(-).decode('utf-8')` (total);
* `pdfopen_extract`   — `pdfplumber.open` followed by
  `page.extract_text(x_tolerance=t)` on each page, in page order; `none`
  is a page where `extract_text` returned `None`;
* `convert_page` — `convert_from_bytes(bytes, dpi, fmt, first_page=n,
  last_page=n)[0]` followed by nothing (the `PIL` image handle);
* `image_open`   — `PIL.Image.open`;
* `image_save_png` — `img.save(buffer, format='PNG')`, the PNG bytes;
* `doc_extract_text` — the whole legacy-`.doc` heuristic of lines 115-184
  of `main.py` (olefile stream scanning, then multi-encoding fallback),
  producing `extracted_text`; an `Except.error` is an exception reaching
  the branch's `except` (e.g. a failing import);
* `doc_final_clean` — the two `re.sub` cleanup passes of lines 189-190;
* `docx_open`    — `docx.Document`;
* `read_excel_to_string` — `pd.read_excel` followed by `df.to_string()`. -/
structure PyEnv where
  b64decode : String → Except String PyBytes
  magic_from_buffer : PyBytes → String
  b64encode : PyBytes → String
  pdfopen_extract : PyBytes → Nat → Except String (List (Option String))
  convert_page : PyBytes → Nat → String → Nat → Except String PILImage
  image_open : PyBytes → Except String PILImage
  image_save_png : PILImage → PyBytes
  doc_extract_text : PyBytes → Except String String
  doc_final_clean : String → String
  docx_open : PyBytes → Except String DocxDocument
  read_excel_to_string : PyBytes → Except String String

/-- Python's `str.isspace` test on one character: the whitespace
characters `str.strip()` removes. -/
def pyIsSpace (c : Char) : Bool :=
  c == ' ' || c == '\t' || c == '\n' || c == '\r' || c == '\x0b' || c == '\x0c'

/-- Python's `str.strip()`: drop leading and trailing whitespace. -/
def pyStrip (s : String) : String :=
  ⟨((s.data.dropWhile pyIsSpace).reverse.dropWhile pyIsSpace).reverse⟩

/-- Whether `p` is an initial segment of `s` (character lists). -/
def strHasPre : List Char → List Char → Bool
  | _, [] => true
  | [], _ :: _ => false
  | c :: cs, p :: ps => c == p && strHasPre cs ps

/-- Python's `str.startswith(pre)`. -/
def pyStartsWith (s pre : String) : Bool :=
  strHasPre s.data pre.data

/-- Lines 81-88 of `main.py`: rasterize one page (`dpi=200`, `fmt='PNG'`),
re-save it as PNG, base64-encode it and wrap it as an `ImageBlock`. -/
def pdfRasterizePage (env : PyEnv) (decoded_bytes : PyBytes) (mime_type : String)
    (page_number : Nat) : Except String ContentBlock :=
  match env.convert_page decoded_bytes 200 "PNG" page_number with
  | .error e => .error e
  | .ok page_image =>
      .ok (.image (some page_number)
        ⟨mime_type, env.b64encode (env.image_save_png page_image)⟩)

/-- Lines 76-88 of `main.py`: the per-page decision.  `if page_text and
page_text.strip():` emit a `TextBlock` with the stripped text, else
rasterize the page. -/
def pdfPageBlock (env : PyEnv) (decoded_bytes : PyBytes) (mime_type : String)
    (page_number : Nat) (page_text : Option String) : Except String ContentBlock :=
  match page_text with
  | some t =>
      if t ≠ "" ∧ pyStrip t ≠ "" then .ok (.text (some page_number) (pyStrip t))
      else pdfRasterizePage env decoded_bytes mime_type page_number
  | none => pdfRasterizePage env decoded_bytes mime_type page_number

/-- The `for page in pdf.pages:` loop of lines 74-88 of `main.py`,
accumulating one block per page; `page_number` is the 1-based position of
the page in `pdf.pages` (as `pdfplumber` numbers pages), so the loop is
started with `n = 1`.  A per-page failure aborts the whole loop, as the
raised exception does in Python. -/
def pdfLoop (env : PyEnv) (decoded_bytes : PyBytes) (mime_type : String) :
    List (Option String) → Nat → Except String (List ContentBlock)
  | [], _ => .ok []
  | page_text :: rest, n =>
      match pdfPageBlock env decoded_bytes mime_type n page_text with
      | .error e => .error e
      | .ok b =>
          match pdfLoop env decoded_bytes mime_type rest (n + 1) with
          | .error e => .error e
          | .ok bs => .ok (b :: bs)

/-- Lines 71-93 of `main.py`: the PDF branch.  Any exception from
`pdfplumber.open` or the page loop is turned into
`HTTPException(500, "Erro ao processar PDF: ...")` (which the outer
handler then re-wraps). -/
def processPdf (env : PyEnv) (decoded_bytes : PyBytes) (mime_type : String) :
    Except PyExc ResultDict :=
  match env.pdfopen_extract decoded_bytes 2 with
  | .error e => .error (.http 500 ("Erro ao processar PDF: " ++ e))
  | .ok pages =>
      match pdfLoop env decoded_bytes mime_type pages 1 with
      | .error e => .error (.http 500 ("Erro ao processar PDF: " ++ e))
      | .ok content_blocks =>
          .ok ⟨"success", "documento_unificado", some content_blocks,
            "PDF processado. Total de " ++ toString content_blocks.length ++ " páginas."⟩

/-- Lines 96-106 of `main.py`: the image branch.  A failing `Image.open`
raises out of the branch (to the outer handler). -/
def processImage (env : PyEnv) (decoded_bytes : PyBytes) (mime_type : String) :
    Except PyExc ResultDict :=
  match env.image_open decoded_bytes with
  | .error e => .error (.exc e)
  | .ok img =>
      .ok ⟨"success", "documento_unificado",
        some [ContentBlock.image none
          ⟨mime_type, env.b64encode (env.image_save_png img)⟩],
        "Arquivo de imagem (" ++ mime_type ++ ") processado."⟩

/-- The f-string of lines 193-194 of `main.py` (success wrapper for
legacy-`.doc` text, after the final cleanup passes). -/
def docSuccessText (env : PyEnv) (extracted_text : String) : String :=
  "[TEXTO EXTRAÍDO DE ARQUIVO DOC]\n\n" ++ env.doc_final_clean extracted_text ++
    "\n\n[NOTA: Extração de arquivo DOC antigo. Para melhor qualidade, converta para DOCX]"

/-- The advisory text of lines 200-207 of `main.py` (legacy-`.doc`
degraded-success outcome), carrying the detected media type and the byte
size. -/
def docAdvisoryText (mime_type : String) (size : Nat) : String :=
  "[ARQUIVO DOC DETECTADO - EXTRAÇÃO LIMITADA]\n\n" ++
    "Arquivo Microsoft Word antigo (.doc) detectado, mas não foi possível extrair texto suficiente.\n\n" ++
    "Recomendações para melhor extração:\n" ++
    "1. Converter para DOCX usando Microsoft Word\n" ++
    "2. Salvar como PDF\n" ++
    "3. Usar uma ferramenta online de conversão\n\n" ++
    "Formato detectado: " ++ mime_type ++ "\n" ++
    "Tamanho do arquivo: " ++ toString size ++ " bytes"

/-- Lines 109-212 of `main.py`: the legacy `.doc` branch.  The heuristic
extraction (modelled by `doc_extract_text`) yields `extracted_text`; the
threshold decision of line 187 then picks one of two success outcomes,
and an exception reaching the branch's `except` yields an error dict. -/
def processDoc (env : PyEnv) (decoded_bytes : PyBytes) (mime_type : String) :
    Except PyExc ResultDict :=
  match env.doc_extract_text decoded_bytes with
  | .error e => .ok ⟨"error", "error", none, "Erro ao processar arquivo DOC: " ++ e⟩
  | .ok extracted_text =>
      if extracted_text ≠ "" ∧ (pyStrip extracted_text).length > 20 then
        .ok ⟨"success", "documento_unificado",
          some [ContentBlock.text none (docSuccessText env extracted_text)],
          "Texto extraído de arquivo DOC antigo com sucesso."⟩
      else
        .ok ⟨"success", "documento_unificado",
          some [ContentBlock.text none (docAdvisoryText mime_type decoded_bytes.length)],
          "Arquivo DOC detectado mas extração limitada. Recomenda-se conversão."⟩

/-- Lines 230-237 of `main.py`: one table row's rendering — the stripped,
non-empty cell texts. -/
def docxRowText (row : List String) : List String :=
  (row.map pyStrip).filter (fun cell_text => cell_text ≠ "")

/-- Lines 229-237 of `main.py`: `table_content` — each non-empty row
joined with `" | "`. -/
def docxTableContent (table : List (List String)) : List String :=
  ((table.map docxRowText).filter (fun row_content => row_content ≠ [])).map
    (String.intercalate " | ")

/-- Lines 239-242 of `main.py`: a non-empty table is wrapped in the
`--- TABELA ---` / `--- FIM TABELA ---` markers; an empty one contributes
nothing. -/
def docxRenderTable (table : List (List String)) : List String :=
  if docxTableContent table ≠ [] then
    "\n--- TABELA ---" :: (docxTableContent table ++ ["--- FIM TABELA ---\n"])
  else []

/-- Lines 220-266 of `main.py`: `extracted_content` — stripped non-empty
paragraphs first, then every table's rendering, then the
`[ELEMENTO ESPECIAL]` lines for other body elements with non-empty text. -/
def docxExtractedContent (d : DocxDocument) : List String :=
  ((d.paragraphs.filter (fun t => pyStrip t ≠ "")).map pyStrip)
    ++ (d.tables.map docxRenderTable).flatten
    ++ ((d.specials.filter (fun t => t ≠ "" ∧ pyStrip t ≠ "")).map
          (fun t => "[ELEMENTO ESPECIAL]: " ++ pyStrip t))

/-- Line 269 of `main.py`: `text_content = '\n'.join(extracted_content)`. -/
def docxTextContent (d : DocxDocument) : String :=
  String.intercalate "\n" (docxExtractedContent d)

/-- Lines 215-277 of `main.py`: the DOCX branch.  `if text_content and
text_content.strip():` emits a single `TextBlock` (no page number) with
the stripped joined content; otherwise an error dict; a failing
`docx.Document` also yields an error dict. -/
def processDocx (env : PyEnv) (decoded_bytes : PyBytes) : Except PyExc ResultDict :=
  match env.docx_open decoded_bytes with
  | .error e => .ok ⟨"error", "error", none, "Erro ao processar arquivo DOCX: " ++ e⟩
  | .ok doc =>
      if docxTextContent doc ≠ "" ∧ pyStrip (docxTextContent doc) ≠ "" then
        .ok ⟨"success", "documento_unificado",
          some [ContentBlock.text none (pyStrip (docxTextContent doc))],
          "Arquivo DOCX processado com extração aprimorada."⟩
      else
        .ok ⟨"error", "error", none,
          "Documento DOCX está vazio ou não contém texto extraível."⟩

/-- Lines 280-283 of `main.py`: the XLSX branch; a failing
`pd.read_excel` raises out of the branch (to the outer handler). -/
def processXlsx (env : PyEnv) (decoded_bytes : PyBytes) : Except PyExc ResultDict :=
  match env.read_excel_to_string decoded_bytes with
  | .error e => .error (.exc e)
  | .ok df_string =>
      .ok ⟨"success", "documento_unificado", some [ContentBlock.text none df_string],
        "Arquivo XLSX processado."⟩

/-- Lines 71-287 of `main.py`: the `if/elif` dispatch on the sniffed MIME
type, ending in the unsupported-type dict. -/
def dispatch (env : PyEnv) (decoded_bytes : PyBytes) : Except PyExc ResultDict :=
  if env.magic_from_buffer decoded_bytes = "application/pdf" then
    processPdf env decoded_bytes (env.magic_from_buffer decoded_bytes)
  else if pyStartsWith (env.magic_from_buffer decoded_bytes) "image/" then
    processImage env decoded_bytes (env.magic_from_buffer decoded_bytes)
  else if env.magic_from_buffer decoded_bytes = "application/msword" then
    processDoc env decoded_bytes (env.magic_from_buffer decoded_bytes)
  else if env.magic_from_buffer decoded_bytes =
      "application/vnd.openxmlformats-officedocument.wordprocessingml.document" then
    processDocx env decoded_bytes
  else if env.magic_from_buffer decoded_bytes =
      "application/vnd.openxmlformats-officedocument.spreadsheetml.sheet" then
    processXlsx env decoded_bytes
  else
    .ok ⟨"error", "unsupported", none,
      "Tipo de arquivo não suportado: " ++ env.magic_from_buffer decoded_bytes⟩

/-- The body of the outer `try:` of `process_base64_file` (lines 64-287):
base64-decode, sniff, dispatch. -/
def innerProcess (env : PyEnv) (base64_string : String) : Except PyExc ResultDict :=
  match env.b64decode base64_string with
  | .error e => .error (.exc e)
  | .ok decoded_bytes => dispatch env decoded_bytes

/-- Lines 57-290 of `main.py`: `process_base64_file`.  Any exception
escaping the body — including the `HTTPException(500, ...)` raised by the
PDF branch, which is an `Exception` too — is caught by the outer handler
and re-raised as `HTTPException(400, "Ocorreu um erro inesperado: " +
str(e))`. -/
def process_base64_file (env : PyEnv) (base64_string : String) :
    Except PyExc ResultDict :=
  match innerProcess env base64_string with
  | .ok result => .ok result
  | .error e => .error (.http 400 ("Ocorreu um erro inesperado: " ++ pyExcStr e))

/-! ### Concrete environments used to evaluate the pipeline on inputs -/

/-- A base environment: decoding always yields the byte string `[0]`,
which sniffs as `application/octet-stream` (an unsupported type); the
remaining library fields are simple fixed functions. -/
def baseEnv : PyEnv where
  b64decode := fun _ => Except.ok [0]
  magic_from_buffer := fun _ => "application/octet-stream"
  b64encode := fun _ => "B64PNG"
  pdfopen_extract := fun _ _ => Except.ok []
  convert_page := fun _ _ _ _ => Except.ok 0
  image_open := fun _ => Except.ok 0
  image_save_png := fun _ => [1]
  doc_extract_text := fun _ => Except.ok ""
  doc_final_clean := fun t => t
  docx_open := fun _ => Except.error "not a docx"
  read_excel_to_string := fun _ => Except.ok "df"

/-- A two-page mixed PDF: page 1 has extractable text (with surrounding
whitespace), page 2 has none and rasterizes successfully. -/
def envMixed : PyEnv :=
  { baseEnv with
    b64decode := fun _ => Except.ok [9]
    magic_from_buffer := fun _ => "application/pdf"
    b64encode := fun _ => "UE5HREFUQQ=="
    pdfopen_extract := fun _ _ => Except.ok [some "  Hello page 1  ", none]
    convert_page := fun _ _ _ _ => Except.ok 7 }

/-- The page texts `envMixed` produces. -/
def mixedPages : List (Option String) := [some "  Hello page 1  ", none]

/-- The blocks the pipeline produces on `envMixed`. -/
def mixedBlocks : List ContentBlock :=
  [ContentBlock.text (some 1) "Hello page 1",
   ContentBlock.image (some 2) ⟨"application/pdf", "UE5HREFUQQ=="⟩]

/-- The dict the pipeline returns on `envMixed`. -/
def mixedResult : ResultDict :=
  ⟨"success", "documento_unificado", some mixedBlocks,
    "PDF processado. Total de 2 páginas."⟩

/-- A PDF whose open/parse step fails. -/
def envPdfFail : PyEnv :=
  { envMixed with pdfopen_extract := fun _ _ => Except.error "bad pdf" }

/-- A two-page PDF whose second page has no text and whose rasterization
fails. -/
def envRasterFail : PyEnv :=
  { envMixed with convert_page := fun _ _ _ _ => Except.error "raster boom" }

/-- A legacy `.doc` file whose heuristic extraction raises. -/
def envDocErr : PyEnv :=
  { baseEnv with
    magic_from_buffer := fun _ => "application/msword"
    doc_extract_text := fun _ => Except.error "ole boom" }

/-- A legacy `.doc` file whose heuristic extraction finds a long text. -/
def envDocLong : PyEnv :=
  { baseEnv with
    magic_from_buffer := fun _ => "application/msword"
    doc_extract_text := fun _ => Except.ok "This is a sufficiently long doc text." }

/-- An XLSX file that `pd.read_excel` rejects. -/
def envXlsxFail : PyEnv :=
  { baseEnv with
    magic_from_buffer := fun _ =>
      "application/vnd.openxmlformats-officedocument.spreadsheetml.sheet"
    read_excel_to_string := fun _ => Except.error "bad xlsx" }

/-- A DOCX with no paragraphs and no tables, but one extra body element
carrying the text `"x"`. -/
def envDocxSpecial : PyEnv :=
  { baseEnv with
    magic_from_buffer := fun _ =>
      "application/vnd.openxmlformats-officedocument.wordprocessingml.document"
    docx_open := fun _ => Except.ok ⟨[], [], ["x"]⟩ }

/-- A DOCX with paragraphs and tables (one table row has an empty cell,
one table is entirely empty, one paragraph is whitespace-only). -/
def docxFullDoc : DocxDocument :=
  ⟨["Hello", "  ", "World"], [[["a", "b"], ["", "c"]], [[""]]], [""]⟩

/-- Environment serving `docxFullDoc`. -/
def envDocxFull : PyEnv :=
  { baseEnv with
    magic_from_buffer := fun _ =>
      "application/vnd.openxmlformats-officedocument.wordprocessingml.document"
    docx_open := fun _ => Except.ok docxFullDoc }

/-- A JPEG image input. -/
def envJpeg : PyEnv :=
  { baseEnv with
    magic_from_buffer := fun _ => "image/jpeg"
    image_open := fun _ => Except.ok 5 }

/-! ### Helper lemmas -/

/-- Once decoding succeeds, `process_base64_file` is the dispatch wrapped
by the outer exception handler. -/
theorem process_dispatch_eq (env : PyEnv) (s : String) (decoded : PyBytes)
    (hdec : env.b64decode s = Except.ok decoded) :
    process_base64_file env s =
      match dispatch env decoded with
      | .ok r => .ok r
      | .error e =>
          .error (.http 400 ("Ocorreu um erro inesperado: " ++ pyExcStr e)) := by
  unfold process_base64_file innerProcess
  rw [hdec]

/-- In the PDF branch, a successful result's blocks are exactly the
output of the page loop. -/
theorem process_pdf_blocks (env : PyEnv) (s : String) (decoded : PyBytes)
    (pages : List (Option String)) (r : ResultDict)
    (hdec : env.b64decode s = Except.ok decoded)
    (hmime : env.magic_from_buffer decoded = "application/pdf")
    (hopen : env.pdfopen_extract decoded 2 = Except.ok pages)
    (hr : process_base64_file env s = Except.ok r) :
    ∃ blocks, pdfLoop env decoded "application/pdf" pages 1 = Except.ok blocks ∧
      r.data = some blocks ∧ r.status = "success" := by
  rw [process_dispatch_eq env s decoded hdec] at hr
  unfold dispatch at hr
  rw [hmime, if_pos rfl] at hr
  unfold processPdf at hr
  rw [hopen] at hr
  simp only [] at hr
  cases hl : pdfLoop env decoded "application/pdf" pages 1 with
  | error e => rw [hl] at hr; simp at hr
  | ok blocks =>
      rw [hl] at hr
      simp only [Except.ok.injEq] at hr
      exact ⟨blocks, rfl, by rw [← hr], by rw [← hr]⟩

/-- The shape of the block `pdfPageBlock` produces for one page: a
`TextBlock` with the stripped text when the page text strips to something
non-empty, otherwise the rasterized `ImageBlock` (whose production must
have succeeded). -/
theorem pdfPageBlock_spec (env : PyEnv) (decoded : PyBytes) (mime : String)
    (n : Nat) (pt : Option String) (b : ContentBlock)
    (h : pdfPageBlock env decoded mime n pt = Except.ok b) :
    (∀ t, pt = some t → pyStrip t ≠ "" → b = ContentBlock.text (some n) (pyStrip t)) ∧
    ((∀ t, pt = some t → pyStrip t = "") →
      ∃ img, env.convert_page decoded 200 "PNG" n = Except.ok img ∧
        b = ContentBlock.image (some n) ⟨mime, env.b64encode (env.image_save_png img)⟩) := by
  cases pt with
  | none =>
      unfold pdfPageBlock pdfRasterizePage at h
      cases hc : env.convert_page decoded 200 "PNG" n with
      | error e => rw [hc] at h; simp at h
      | ok img =>
          rw [hc] at h
          simp only [Except.ok.injEq] at h
          exact ⟨fun t ht => Option.noConfusion ht,
            fun _ => ⟨img, rfl, h.symm⟩⟩
  | some t =>
      unfold pdfPageBlock at h
      simp only [] at h
      by_cases hcond : t ≠ "" ∧ pyStrip t ≠ ""
      · rw [if_pos hcond] at h
        simp only [Except.ok.injEq] at h
        constructor
        · intro t' ht' _
          cases ht'
          exact h.symm
        · intro hall
          exact absurd (hall t rfl) hcond.2
      · rw [if_neg hcond] at h
        unfold pdfRasterizePage at h
        cases hc : env.convert_page decoded 200 "PNG" n with
        | error e => rw [hc] at h; simp at h
        | ok img =>
            rw [hc] at h
            simp only [Except.ok.injEq] at h
            constructor
            · intro t' ht' htrim
              cases ht'
              have ht0 : t ≠ "" := by
                intro he
                rw [he] at htrim
                exact htrim (by decide)
              exact absurd ⟨ht0, htrim⟩ hcond
            · intro _
              exact ⟨img, rfl, h.symm⟩

/-- The page loop starting at page number `n` yields one block per page,
and the `i`-th block is exactly the per-page decision's output for the
`i`-th page, carrying page number `n + i`. -/
theorem pdfLoop_spec (env : PyEnv) (decoded : PyBytes) (mime : String) :
    ∀ (pages : List (Option String)) (n : Nat) (blocks : List ContentBlock),
      pdfLoop env decoded mime pages n = Except.ok blocks →
      blocks.length = pages.length ∧
      ∀ i (h : i < pages.length) (hb : i < blocks.length),
        (∀ t, pages.get ⟨i, h⟩ = some t → pyStrip t ≠ "" →
          blocks.get ⟨i, hb⟩ = ContentBlock.text (some (n + i)) (pyStrip t)) ∧
        ((∀ t, pages.get ⟨i, h⟩ = some t → pyStrip t = "") →
          ∃ img, env.convert_page decoded 200 "PNG" (n + i) = Except.ok img ∧
            blocks.get ⟨i, hb⟩ = ContentBlock.image (some (n + i))
              ⟨mime, env.b64encode (env.image_save_png img)⟩) := by
  intro pages
  induction pages with
  | nil =>
      intro n blocks h
      unfold pdfLoop at h
      simp only [Except.ok.injEq] at h
      subst h
      exact ⟨rfl, fun i hi _ => absurd hi (by simp)⟩
  | cons pt rest ih =>
      intro n blocks h
      unfold pdfLoop at h
      cases hpb : pdfPageBlock env decoded mime n pt with
      | error e => rw [hpb] at h; simp at h
      | ok b =>
          rw [hpb] at h
          simp only [] at h
          cases hrest : pdfLoop env decoded mime rest (n + 1) with
          | error e => rw [hrest] at h; simp at h
          | ok bs =>
              rw [hrest] at h
              simp only [Except.ok.injEq] at h
              subst h
              obtain ⟨ihlen, ihspec⟩ := ih (n + 1) bs hrest
              refine ⟨by simp [ihlen], fun i hi hbi => ?_⟩
              cases i with
              | zero =>
                  exact pdfPageBlock_spec env decoded mime n pt b hpb
              | succ j =>
                  have hj : j < rest.length := by simpa using hi
                  have hbj : j < bs.length := by simpa using hbi
                  have h2 := ihspec j hj hbj
                  have he : n + 1 + j = n + (j + 1) := by omega
                  rw [he] at h2
                  exact h2

/-- The page loop starting at `n` gives the `i`-th block source page
`n + i`: blocks come out in ascending page order, one per page. -/
theorem pdfLoop_order (env : PyEnv) (decoded : PyBytes) (mime : String) :
    ∀ (pages : List (Option String)) (n : Nat) (blocks : List ContentBlock),
      pdfLoop env decoded mime pages n = Except.ok blocks →
      blocks.length = pages.length ∧
      ∀ i (hb : i < blocks.length),
        (blocks.get ⟨i, hb⟩).source_page = some (n + i) := by
  intro pages n blocks h
  obtain ⟨hlen, hspec⟩ := pdfLoop_spec env decoded mime pages n blocks h
  refine ⟨hlen, fun i hb => ?_⟩
  have hi : i < pages.length := hlen ▸ hb
  by_cases hall : ∀ t, pages.get ⟨i, hi⟩ = some t → pyStrip t = ""
  · obtain ⟨img, _, hbl⟩ := (hspec i hi hb).2 hall
    rw [hbl]
    rfl
  · push_neg at hall
    obtain ⟨t, ht, htrim⟩ := hall
    rw [(hspec i hi hb).1 t ht htrim]
    rfl

/-! ### Claim theorems -/

/-- C1: for every page of a PDF input processed to success, the pipeline
applies the per-page binary decision: if the text extracted from that
page (with the configured horizontal tolerance, `x_tolerance=2`) is
non-empty after stripping leading/trailing whitespace, the page's block
is a `TextBlock` with the page's 1-based number and the stripped text;
otherwise that single page was rasterized (at 200 DPI, PNG format) and
the page's block is an `ImageBlock` with the page's number, the PNG
payload, and `original_mime_type = "application/pdf"`. -/
theorem pdf_page_decision (env : PyEnv) (s : String) (decoded : PyBytes)
    (pages : List (Option String)) (r : ResultDict) (blocks : List ContentBlock)
    (hdec : env.b64decode s = Except.ok decoded)
    (hmime : env.magic_from_buffer decoded = "application/pdf")
    (hopen : env.pdfopen_extract decoded 2 = Except.ok pages)
    (hr : process_base64_file env s = Except.ok r)
    (hdata : r.data = some blocks) :
    blocks.length = pages.length ∧
    ∀ i (h : i < pages.length) (hb : i < blocks.length),
      (∀ t, pages.get ⟨i, h⟩ = some t → pyStrip t ≠ "" →
        blocks.get ⟨i, hb⟩ = ContentBlock.text (some (i + 1)) (pyStrip t)) ∧
      ((∀ t, pages.get ⟨i, h⟩ = some t → pyStrip t = "") →
        ∃ img, env.convert_page decoded 200 "PNG" (i + 1) = Except.ok img ∧
          blocks.get ⟨i, hb⟩ = ContentBlock.image (some (i + 1))
            ⟨"application/pdf", env.b64encode (env.image_save_png img)⟩) := by
  obtain ⟨blocks', hloop, hdata', _⟩ :=
    process_pdf_blocks env s decoded pages r hdec hmime hopen hr
  rw [hdata'] at hdata
  injection hdata with hb
  subst hb
  obtain ⟨hlen, hspec⟩ := pdfLoop_spec env decoded "application/pdf" pages 1 _ hloop
  refine ⟨hlen, fun i hi hbi => ?_⟩
  have h2 := hspec i hi hbi
  rw [Nat.add_comm 1 i] at h2
  exact h2

/-- C1 witness: the mixed two-page PDF of `envMixed` — page 1's text
strips to `"Hello page 1"` and yields the `TextBlock`, page 2 has no text
and yields the rasterized `ImageBlock`. -/
theorem pdf_page_decision_witness :
    mixedBlocks.get ⟨0, by decide⟩ =
      ContentBlock.text (some 1) (pyStrip "  Hello page 1  ") ∧
    (∃ img, envMixed.convert_page [9] 200 "PNG" 2 = Except.ok img ∧
      mixedBlocks.get ⟨1, by decide⟩ = ContentBlock.image (some 2)
        ⟨"application/pdf", envMixed.b64encode (envMixed.image_save_png img)⟩) := by
  have h := pdf_page_decision envMixed "in" [9] mixedPages mixedResult mixedBlocks
    rfl rfl rfl rfl rfl
  exact ⟨(h.2 0 (by decide) (by decide)).1 "  Hello page 1  " rfl (by decide),
    (h.2 1 (by decide) (by decide)).2 (fun t ht => Option.noConfusion ht)⟩

/-- C2: for every PDF input processed to success there is exactly one
block per page and the `i`-th block (0-based) carries
`source_page = i + 1`: blocks appear in ascending 1-based page order,
text and image blocks freely interleaved.  (The witness instantiates the
mixed PDF of the claim: page 1 text, page 2 scan, giving
`[TextBlock(page=1), ImageBlock(page=2)]`.) -/
theorem pdf_block_order (env : PyEnv) (s : String) (decoded : PyBytes)
    (pages : List (Option String)) (r : ResultDict) (blocks : List ContentBlock)
    (hdec : env.b64decode s = Except.ok decoded)
    (hmime : env.magic_from_buffer decoded = "application/pdf")
    (hopen : env.pdfopen_extract decoded 2 = Except.ok pages)
    (hr : process_base64_file env s = Except.ok r)
    (hdata : r.data = some blocks) :
    blocks.length = pages.length ∧
    ∀ i (hb : i < blocks.length),
      (blocks.get ⟨i, hb⟩).source_page = some (i + 1) := by
  obtain ⟨blocks', hloop, hdata', _⟩ :=
    process_pdf_blocks env s decoded pages r hdec hmime hopen hr
  rw [hdata'] at hdata
  injection hdata with hb
  subst hb
  obtain ⟨hlen, hord⟩ := pdfLoop_order env decoded "application/pdf" pages 1 _ hloop
  refine ⟨hlen, fun i hb => ?_⟩
  have h2 := hord i hb
  rw [Nat.add_comm 1 i] at h2
  exact h2

/-- C2 witness: the mixed PDF (page 1 has text, page 2 is a scan)
produces exactly the two blocks `TextBlock(page=1), ImageBlock(page=2)`
in that order. -/
theorem pdf_block_order_witness :
    mixedBlocks.length = 2 ∧
    (mixedBlocks.get ⟨0, by decide⟩).source_page = some 1 ∧
    (mixedBlocks.get ⟨1, by decide⟩).source_page = some 2 ∧
    mixedBlocks.get ⟨0, by decide⟩ = ContentBlock.text (some 1) "Hello page 1" := by
  have h := pdf_block_order envMixed "in" [9] mixedPages mixedResult mixedBlocks
    rfl rfl rfl rfl rfl
  exact ⟨h.1, h.2 0 (by decide), h.2 1 (by decide), rfl⟩

/-! ### Branch-failure helper lemmas -/

/-- A failing legacy-`.doc` extraction is caught inside the branch and
returned as an error dict. -/
theorem doc_error_case (env : PyEnv) (s : String) (decoded : PyBytes) (e : String)
    (hdec : env.b64decode s = Except.ok decoded)
    (hmime : env.magic_from_buffer decoded = "application/msword")
    (he : env.doc_extract_text decoded = Except.error e) :
    process_base64_file env s =
      Except.ok ⟨"error", "error", none, "Erro ao processar arquivo DOC: " ++ e⟩ := by
  rw [process_dispatch_eq env s decoded hdec]
  unfold dispatch
  rw [hmime, if_neg (by decide), if_neg (by decide), if_pos rfl]
  unfold processDoc
  rw [he]

/-- A failing `docx.Document` is caught inside the branch and returned as
an error dict. -/
theorem docx_error_case (env : PyEnv) (s : String) (decoded : PyBytes) (e : String)
    (hdec : env.b64decode s = Except.ok decoded)
    (hmime : env.magic_from_buffer decoded =
      "application/vnd.openxmlformats-officedocument.wordprocessingml.document")
    (he : env.docx_open decoded = Except.error e) :
    process_base64_file env s =
      Except.ok ⟨"error", "error", none, "Erro ao processar arquivo DOCX: " ++ e⟩ := by
  rw [process_dispatch_eq env s decoded hdec]
  unfold dispatch
  rw [hmime, if_neg (by decide), if_neg (by decide), if_neg (by decide), if_pos rfl]
  unfold processDocx
  rw [he]

/-- A failing `pdfplumber.open`/parse raises `HTTPException(500, ...)`,
which the outer handler re-raises as an `HTTPException(400, ...)`. -/
theorem pdf_open_error_case (env : PyEnv) (s : String) (decoded : PyBytes) (e : String)
    (hdec : env.b64decode s = Except.ok decoded)
    (hmime : env.magic_from_buffer decoded = "application/pdf")
    (he : env.pdfopen_extract decoded 2 = Except.error e) :
    process_base64_file env s =
      Except.error (PyExc.http 400
        ("Ocorreu um erro inesperado: 500: Erro ao processar PDF: " ++ e)) := by
  rw [process_dispatch_eq env s decoded hdec]
  unfold dispatch
  rw [hmime, if_pos rfl]
  unfold processPdf
  rw [he]
  rfl

/-- A per-page failure in the PDF loop (e.g. a rasterization failure)
raises `HTTPException(500, ...)`, re-raised by the outer handler as an
`HTTPException(400, ...)`; no dict — and hence no partial block list —
is returned. -/
theorem pdf_loop_error_case (env : PyEnv) (s : String) (decoded : PyBytes)
    (pages : List (Option String)) (e : String)
    (hdec : env.b64decode s = Except.ok decoded)
    (hmime : env.magic_from_buffer decoded = "application/pdf")
    (hopen : env.pdfopen_extract decoded 2 = Except.ok pages)
    (he : pdfLoop env decoded "application/pdf" pages 1 = Except.error e) :
    process_base64_file env s =
      Except.error (PyExc.http 400
        ("Ocorreu um erro inesperado: 500: Erro ao processar PDF: " ++ e)) := by
  rw [process_dispatch_eq env s decoded hdec]
  unfold dispatch
  rw [hmime, if_pos rfl]
  unfold processPdf
  rw [hopen]
  simp only []
  rw [he]
  rfl

/-- A failing `Image.open` escapes the image branch and is re-raised by
the outer handler as an `HTTPException(400, ...)`. -/
theorem image_error_case (env : PyEnv) (s : String) (decoded : PyBytes) (e : String)
    (hdec : env.b64decode s = Except.ok decoded)
    (hmime : env.magic_from_buffer decoded = "image/jpeg")
    (he : env.image_open decoded = Except.error e) :
    process_base64_file env s =
      Except.error (PyExc.http 400 ("Ocorreu um erro inesperado: " ++ e)) := by
  rw [process_dispatch_eq env s decoded hdec]
  unfold dispatch
  rw [hmime, if_neg (by decide), if_pos (by decide)]
  unfold processImage
  rw [he]
  rfl

/-- A failing `pd.read_excel` escapes the XLSX branch and is re-raised by
the outer handler as an `HTTPException(400, ...)`. -/
theorem xlsx_error_case (env : PyEnv) (s : String) (decoded : PyBytes) (e : String)
    (hdec : env.b64decode s = Except.ok decoded)
    (hmime : env.magic_from_buffer decoded =
      "application/vnd.openxmlformats-officedocument.spreadsheetml.sheet")
    (he : env.read_excel_to_string decoded = Except.error e) :
    process_base64_file env s =
      Except.error (PyExc.http 400 ("Ocorreu um erro inesperado: " ++ e)) := by
  rw [process_dispatch_eq env s decoded hdec]
  unfold dispatch
  rw [hmime, if_neg (by decide), if_neg (by decide), if_neg (by decide),
    if_neg (by decide), if_pos rfl]
  unfold processXlsx
  rw [he]
  rfl

/-- Every exception `process_base64_file` lets escape is an
`HTTPException` with status code 400 (the outer handler's re-raise). -/
theorem escape_is_http400 (env : PyEnv) (s : String) (exc : PyExc)
    (h : process_base64_file env s = Except.error exc) :
    ∃ d, exc = PyExc.http 400 d := by
  unfold process_base64_file at h
  cases hin : innerProcess env s with
  | ok r => rw [hin] at h; simp at h
  | error e =>
      rw [hin] at h
      simp only [Except.error.injEq] at h
      exact ⟨"Ocorreu um erro inesperado: " ++ pyExcStr e, h.symm⟩

/-- C3 counterexample: `envPdfFail` sniffs to the supported type
`application/pdf`, yet `process_base64_file` does not return a dict — it
raises (here: the modelled `HTTPException(400, ...)` wrapping the inner
`HTTPException(500, ...)`), so "for every supported media type, process
never raises" is false on the code. -/
theorem process_never_raises_cex :
    process_base64_file envPdfFail "in" =
      Except.error (PyExc.http 400
        "Ocorreu um erro inesperado: 500: Erro ao processar PDF: bad pdf") ∧
    envPdfFail.magic_from_buffer [9] = "application/pdf" :=
  ⟨rfl, rfl⟩

/-- C3 (amended): only the legacy-Word and modern-Word branches catch
their extractor's failures and convert them to the error envelope; a PDF
extractor failure (and likewise image and spreadsheet failures) escapes
`process_base64_file` as a raised exception — albeit always a structured
`HTTPException` with status 400. -/
theorem process_error_escape (env : PyEnv) (s : String) (decoded : PyBytes)
    (hdec : env.b64decode s = Except.ok decoded) :
    (∀ e, env.magic_from_buffer decoded = "application/msword" →
      env.doc_extract_text decoded = Except.error e →
      process_base64_file env s =
        Except.ok ⟨"error", "error", none, "Erro ao processar arquivo DOC: " ++ e⟩) ∧
    (∀ e, env.magic_from_buffer decoded =
        "application/vnd.openxmlformats-officedocument.wordprocessingml.document" →
      env.docx_open decoded = Except.error e →
      process_base64_file env s =
        Except.ok ⟨"error", "error", none, "Erro ao processar arquivo DOCX: " ++ e⟩) ∧
    (∀ e, env.magic_from_buffer decoded = "application/pdf" →
      env.pdfopen_extract decoded 2 = Except.error e →
      process_base64_file env s =
        Except.error (PyExc.http 400
          ("Ocorreu um erro inesperado: 500: Erro ao processar PDF: " ++ e))) ∧
    (∀ exc, process_base64_file env s = Except.error exc →
      ∃ d, exc = PyExc.http 400 d) :=
  ⟨fun e hm he => doc_error_case env s decoded e hdec hm he,
   fun e hm he => docx_error_case env s decoded e hdec hm he,
   fun e hm he => pdf_open_error_case env s decoded e hdec hm he,
   fun exc h => escape_is_http400 env s exc h⟩

/-- C3 witness: on `envDocErr` (a legacy `.doc` whose heuristic raises)
the failure is indeed converted to the error envelope. -/
theorem process_error_escape_witness :
    process_base64_file envDocErr "in" =
      Except.ok ⟨"error", "error", none, "Erro ao processar arquivo DOC: ole boom"⟩ :=
  (process_error_escape envDocErr "in" [0] rfl).1 "ole boom" rfl rfl

/-- C4 counterexample: on an unrecognized type the returned dict has
`status = "error"` (the `unsupported` marker sits in `content_type`) and
`data = None` rather than an empty block sequence, so the claim's
"status unsupported with an empty block sequence" is false on the code. -/
theorem unsupported_status_cex :
    process_base64_file baseEnv "in" =
      Except.ok ⟨"error", "unsupported", none,
        "Tipo de arquivo não suportado: application/octet-stream"⟩ ∧
    ("error" : String) ≠ "unsupported" ∧
    (none : Option (List ContentBlock)) ≠ some [] :=
  ⟨rfl, by decide, by decide⟩

/-- C4 (amended): for every input whose sniffed type is in none of the
five dispatch arms, `process_base64_file` returns the dict with
`status = "error"`, `content_type = "unsupported"`, `data = None` (no
block list at all), and message `"Tipo de arquivo não suportado: <mime>"`. -/
theorem unsupported_envelope (env : PyEnv) (s : String) (decoded : PyBytes)
    (hdec : env.b64decode s = Except.ok decoded)
    (h1 : env.magic_from_buffer decoded ≠ "application/pdf")
    (h2 : pyStartsWith (env.magic_from_buffer decoded) "image/" = false)
    (h3 : env.magic_from_buffer decoded ≠ "application/msword")
    (h4 : env.magic_from_buffer decoded ≠
      "application/vnd.openxmlformats-officedocument.wordprocessingml.document")
    (h5 : env.magic_from_buffer decoded ≠
      "application/vnd.openxmlformats-officedocument.spreadsheetml.sheet") :
    process_base64_file env s =
      Except.ok ⟨"error", "unsupported", none,
        "Tipo de arquivo não suportado: " ++ env.magic_from_buffer decoded⟩ := by
  rw [process_dispatch_eq env s decoded hdec]
  unfold dispatch
  rw [if_neg h1, if_neg (by simp [h2]), if_neg h3, if_neg h4, if_neg h5]

/-- C4 witness: a byte string sniffing to `application/octet-stream`
yields the unsupported envelope. -/
theorem unsupported_envelope_witness :
    process_base64_file baseEnv "in" =
      Except.ok ⟨"error", "unsupported", none,
        "Tipo de arquivo não suportado: application/octet-stream"⟩ :=
  unsupported_envelope baseEnv "in" [0] rfl (by decide) (by decide) (by decide)
    (by decide) (by decide)

/-- C5 counterexample: on `envRasterFail` (a PDF whose page-2
rasterization fails) the Orchestrator does not return the
`{status: error, blocks: [], message: cause}` envelope — it raises, so
the claim "for every extractor failure the Orchestrator returns the
error envelope" is false on the code. -/
theorem extractor_failure_cex :
    process_base64_file envRasterFail "in" =
      Except.error (PyExc.http 400
        "Ocorreu um erro inesperado: 500: Erro ao processar PDF: raster boom") :=
  rfl

/-- C5 (amended): a failing DOC or DOCX extractor yields the envelope
`status = "error"`, `data = None` (no blocks — in particular no partial
blocks), message carrying the cause, with no retry; but a failing PDF
page loop (e.g. rasterization) or spreadsheet parse makes
`process_base64_file` raise an `HTTPException` wrapping the cause
instead of returning an envelope — and nothing partial is surfaced
either way. -/
theorem extractor_failure_policy (env : PyEnv) (s : String) (decoded : PyBytes)
    (hdec : env.b64decode s = Except.ok decoded) :
    (∀ pages e, env.magic_from_buffer decoded = "application/pdf" →
      env.pdfopen_extract decoded 2 = Except.ok pages →
      pdfLoop env decoded "application/pdf" pages 1 = Except.error e →
      process_base64_file env s =
        Except.error (PyExc.http 400
          ("Ocorreu um erro inesperado: 500: Erro ao processar PDF: " ++ e))) ∧
    (∀ e, env.magic_from_buffer decoded =
        "application/vnd.openxmlformats-officedocument.spreadsheetml.sheet" →
      env.read_excel_to_string decoded = Except.error e →
      process_base64_file env s =
        Except.error (PyExc.http 400 ("Ocorreu um erro inesperado: " ++ e))) ∧
    (∀ e r, env.magic_from_buffer decoded = "application/msword" →
      env.doc_extract_text decoded = Except.error e →
      process_base64_file env s = Except.ok r →
      r.status = "error" ∧ r.data = none ∧
        r.message = "Erro ao processar arquivo DOC: " ++ e) ∧
    (∀ e r, env.magic_from_buffer decoded =
        "application/vnd.openxmlformats-officedocument.wordprocessingml.document" →
      env.docx_open decoded = Except.error e →
      process_base64_file env s = Except.ok r →
      r.status = "error" ∧ r.data = none ∧
        r.message = "Erro ao processar arquivo DOCX: " ++ e) := by
  refine ⟨fun pages e hm ho he => pdf_loop_error_case env s decoded pages e hdec hm ho he,
    fun e hm he => xlsx_error_case env s decoded e hdec hm he,
    fun e r hm he hr => ?_, fun e r hm he hr => ?_⟩
  · rw [doc_error_case env s decoded e hdec hm he] at hr
    simp only [Except.ok.injEq] at hr
    rw [← hr]
    exact ⟨rfl, rfl, rfl⟩
  · rw [docx_error_case env s decoded e hdec hm he] at hr
    simp only [Except.ok.injEq] at hr
    rw [← hr]
    exact ⟨rfl, rfl, rfl⟩

/-- C5 witness: a failing `pd.read_excel` on `envXlsxFail` makes the
pipeline raise the wrapped `HTTPException`. -/
theorem extractor_failure_policy_witness :
    process_base64_file envXlsxFail "in" =
      Except.error (PyExc.http 400 "Ocorreu um erro inesperado: bad xlsx") :=
  (extractor_failure_policy envXlsxFail "in" [0] rfl).2.1 "bad xlsx" rfl rfl

/-- C6 counterexample: a DOCX with no paragraph text and no table text
but one extra body element carrying text yields a success (the special
element's text is extracted too), not the error result the claim
requires for "no paragraph text and no table text". -/
theorem docx_empty_cex :
    process_base64_file envDocxSpecial "in" =
      Except.ok ⟨"success", "documento_unificado",
        some [ContentBlock.text none "[ELEMENTO ESPECIAL]: x"],
        "Arquivo DOCX processado com extração aprimorada."⟩ ∧
    ("success" : String) ≠ "error" :=
  ⟨rfl, by decide⟩

/-- C6 (amended): a successfully opened DOCX yields exactly one
`TextBlock` with `source_page` absent whose content is, in order: every
paragraph whose text strips non-empty (one per line), then every table
rendered as a contiguous region wrapped in the `--- TABELA ---` /
`--- FIM TABELA ---` markers with each row's non-empty stripped cell
texts joined by `" | "` (paragraphs first, then tables appended), then
any other body element's non-empty text prefixed `[ELEMENTO ESPECIAL]: `;
a document in which all of these are empty yields an error result, not a
success with an empty block list. -/
theorem docx_extraction (env : PyEnv) (s : String) (decoded : PyBytes)
    (d : DocxDocument)
    (hdec : env.b64decode s = Except.ok decoded)
    (hmime : env.magic_from_buffer decoded =
      "application/vnd.openxmlformats-officedocument.wordprocessingml.document")
    (hopen : env.docx_open decoded = Except.ok d) :
    docxTextContent d = String.intercalate "\n"
      (((d.paragraphs.filter (fun t => pyStrip t ≠ "")).map pyStrip)
        ++ (d.tables.map docxRenderTable).flatten
        ++ ((d.specials.filter (fun t => t ≠ "" ∧ pyStrip t ≠ "")).map
              (fun t => "[ELEMENTO ESPECIAL]: " ++ pyStrip t))) ∧
    (docxTextContent d ≠ "" ∧ pyStrip (docxTextContent d) ≠ "" →
      process_base64_file env s =
        Except.ok ⟨"success", "documento_unificado",
          some [ContentBlock.text none (pyStrip (docxTextContent d))],
          "Arquivo DOCX processado com extração aprimorada."⟩) ∧
    (¬(docxTextContent d ≠ "" ∧ pyStrip (docxTextContent d) ≠ "") →
      process_base64_file env s =
        Except.ok ⟨"error", "error", none,
          "Documento DOCX está vazio ou não contém texto extraível."⟩) := by
  refine ⟨rfl, fun hc => ?_, fun hc => ?_⟩
  · rw [process_dispatch_eq env s decoded hdec]
    unfold dispatch
    rw [hmime, if_neg (by decide), if_neg (by decide), if_neg (by decide), if_pos rfl]
    unfold processDocx
    rw [hopen]
    simp only []
    rw [if_pos hc]
  · rw [process_dispatch_eq env s decoded hdec]
    unfold dispatch
    rw [hmime, if_neg (by decide), if_neg (by decide), if_neg (by decide), if_pos rfl]
    unfold processDocx
    rw [hopen]
    simp only []
    rw [if_neg hc]

/-- C6 witness: `docxFullDoc` (paragraphs `"Hello"`, `"  "`, `"World"`, a
table with rows `a,b` and `(empty),c`, an entirely empty second table, an
empty special element) yields the single `TextBlock` with paragraphs
first and the delimited table after. -/
theorem docx_extraction_witness :
    process_base64_file envDocxFull "in" =
      Except.ok ⟨"success", "documento_unificado",
        some [ContentBlock.text none
          "Hello\nWorld\n\n--- TABELA ---\na | b\nc\n--- FIM TABELA ---"],
        "Arquivo DOCX processado com extração aprimorada."⟩ :=
  (docx_extraction envDocxFull "in" [0] docxFullDoc rfl rfl rfl).2.1 (by decide)

/-- C7: for a legacy `.doc` input whose heuristic extraction ran to
completion, the threshold decision yields a success either way: if the
extracted text strips to more than 20 characters, one `TextBlock`
wrapping the cleaned text between the provenance notes
(`[TEXTO EXTRAÍDO DE ARQUIVO DOC]` / `[NOTA: ...]`); otherwise one fixed
advisory `TextBlock` carrying the detected media type and the byte size
— never an error from the threshold decision itself. -/
theorem legacy_doc_threshold (env : PyEnv) (s : String) (decoded : PyBytes)
    (extracted_text : String)
    (hdec : env.b64decode s = Except.ok decoded)
    (hmime : env.magic_from_buffer decoded = "application/msword")
    (hext : env.doc_extract_text decoded = Except.ok extracted_text) :
    (extracted_text ≠ "" ∧ (pyStrip extracted_text).length > 20 →
      process_base64_file env s =
        Except.ok ⟨"success", "documento_unificado",
          some [ContentBlock.text none (docSuccessText env extracted_text)],
          "Texto extraído de arquivo DOC antigo com sucesso."⟩) ∧
    (¬(extracted_text ≠ "" ∧ (pyStrip extracted_text).length > 20) →
      process_base64_file env s =
        Except.ok ⟨"success", "documento_unificado",
          some [ContentBlock.text none
            (docAdvisoryText "application/msword" decoded.length)],
          "Arquivo DOC detectado mas extração limitada. Recomenda-se conversão."⟩) ∧
    (∀ r, process_base64_file env s = Except.ok r → r.status = "success") := by
  have hsel : ∀ P : Except PyExc ResultDict → Prop,
      P (match processDoc env decoded "application/msword" with
          | .ok r => .ok r
          | .error e =>
              .error (.http 400 ("Ocorreu um erro inesperado: " ++ pyExcStr e))) →
      P (process_base64_file env s) := by
    intro P hp
    rw [process_dispatch_eq env s decoded hdec]
    unfold dispatch
    rw [hmime, if_neg (by decide), if_neg (by decide), if_pos rfl]
    exact hp
  have h1 : extracted_text ≠ "" ∧ (pyStrip extracted_text).length > 20 →
      process_base64_file env s =
        Except.ok ⟨"success", "documento_unificado",
          some [ContentBlock.text none (docSuccessText env extracted_text)],
          "Texto extraído de arquivo DOC antigo com sucesso."⟩ := by
    intro hc
    refine hsel (fun x => x = _) ?_
    unfold processDoc
    rw [hext]
    simp only []
    rw [if_pos hc]
  have h2 : ¬(extracted_text ≠ "" ∧ (pyStrip extracted_text).length > 20) →
      process_base64_file env s =
        Except.ok ⟨"success", "documento_unificado",
          some [ContentBlock.text none
            (docAdvisoryText "application/msword" decoded.length)],
          "Arquivo DOC detectado mas extração limitada. Recomenda-se conversão."⟩ := by
    intro hc
    refine hsel (fun x => x = _) ?_
    unfold processDoc
    rw [hext]
    simp only []
    rw [if_neg hc]
  refine ⟨h1, h2, fun r hr => ?_⟩
  by_cases hc : extracted_text ≠ "" ∧ (pyStrip extracted_text).length > 20
  · rw [h1 hc] at hr
    simp only [Except.ok.injEq] at hr
    rw [← hr]
  · rw [h2 hc] at hr
    simp only [Except.ok.injEq] at hr
    rw [← hr]

/-- C7 witness: a legacy `.doc` whose heuristic extraction finds a
37-character text takes the above-threshold success branch with the
provenance-wrapped content. -/
theorem legacy_doc_threshold_witness :
    process_base64_file envDocLong "in" =
      Except.ok ⟨"success", "documento_unificado",
        some [ContentBlock.text none
          "[TEXTO EXTRAÍDO DE ARQUIVO DOC]\n\nThis is a sufficiently long doc text.\n\n[NOTA: Extração de arquivo DOC antigo. Para melhor qualidade, converta para DOCX]"],
        "Texto extraído de arquivo DOC antigo com sucesso."⟩ :=
  (legacy_doc_threshold envDocLong "in" [0] "This is a sufficiently long doc text."
    rfl rfl rfl).1 (by decide)

/-- C8: for every input sniffing to an `image/`-prefixed type that
`Image.open` accepts, extraction yields exactly one `ImageBlock` with
`source_page` absent, `original_mime_type` equal to the sniffed type,
and a payload that is the input re-encoded to PNG (`img.save(...,
format='PNG')`), regardless of the original image format. -/
theorem image_extraction (env : PyEnv) (s : String) (decoded : PyBytes)
    (img : PILImage)
    (hdec : env.b64decode s = Except.ok decoded)
    (hmime : pyStartsWith (env.magic_from_buffer decoded) "image/" = true)
    (hopen : env.image_open decoded = Except.ok img) :
    process_base64_file env s =
      Except.ok ⟨"success", "documento_unificado",
        some [ContentBlock.image none
          ⟨env.magic_from_buffer decoded,
            env.b64encode (env.image_save_png img)⟩],
        "Arquivo de imagem (" ++ env.magic_from_buffer decoded ++ ") processado."⟩ := by
  have hpdf : env.magic_from_buffer decoded ≠ "application/pdf" := by
    intro he
    rw [he] at hmime
    exact absurd hmime (by decide)
  rw [process_dispatch_eq env s decoded hdec]
  unfold dispatch
  rw [if_neg hpdf, if_pos hmime]
  unfold processImage
  rw [hopen]

/-- C8 witness: a JPEG input yields one `ImageBlock` with the sniffed
type `image/jpeg` and the PNG re-encoding's base64 payload. -/
theorem image_extraction_witness :
    process_base64_file envJpeg "in" =
      Except.ok ⟨"success", "documento_unificado",
        some [ContentBlock.image none ⟨"image/jpeg", "B64PNG"⟩],
        "Arquivo de imagem (image/jpeg) processado."⟩ :=
  image_extraction envJpeg "in" [0] 5 rfl (by decide) rfl

/-- C9: the pipeline is deterministic — with the library calls fixed
functions (as the spec requires of them), `process_base64_file` on equal
inputs returns equal results, and the type sniffer maps equal byte
strings to equal media types. -/
theorem process_deterministic (env : PyEnv) (s1 s2 : String) (b1 b2 : PyBytes)
    (hs : s1 = s2) (hb : b1 = b2) :
    process_base64_file env s1 = process_base64_file env s2 ∧
    env.magic_from_buffer b1 = env.magic_from_buffer b2 := by
  subst hs
  subst hb
  exact ⟨rfl, rfl⟩

/-- C9 witness: determinism at a concrete input. -/
theorem process_deterministic_witness :
    process_base64_file baseEnv "abc" = process_base64_file baseEnv "abc" ∧
    baseEnv.magic_from_buffer [0] = baseEnv.magic_from_buffer [0] :=
  process_deterministic baseEnv "abc" "abc" [0] [0] rfl rfl

/-- C10: whenever `process_base64_file` returns a dict (rather than
raising), a non-`"success"` status comes with `data = None` — never an
empty list — and a block list (`data = some l`) is carried only by
`"success"` results. -/
theorem nonsuccess_data_none (env : PyEnv) (s : String) (r : ResultDict)
    (h : process_base64_file env s = Except.ok r) :
    (r.status ≠ "success" → r.data = none) ∧
    (∀ l, r.data = some l → r.status = "success") := by
  unfold process_base64_file at h
  cases hin : innerProcess env s with
  | error e => rw [hin] at h; simp at h
  | ok r0 =>
      rw [hin] at h
      simp only [Except.ok.injEq] at h
      subst h
      unfold innerProcess at hin
      cases hdec : env.b64decode s with
      | error e => rw [hdec] at hin; simp at hin
      | ok decoded =>
          rw [hdec] at hin
          simp only [] at hin
          unfold dispatch processPdf processImage processDoc processDocx
            processXlsx at hin
          repeat' split at hin
          all_goals simp only [Except.ok.injEq, reduceCtorEq] at hin
          all_goals rw [← hin]
          all_goals constructor
          all_goals intro hx
          all_goals simp_all

/-- C10 witness: the unsupported-type result (status `"error"`) indeed
carries `data = None`. -/
theorem nonsuccess_data_none_witness :
    (ResultDict.mk "error" "unsupported" none
      "Tipo de arquivo não suportado: application/octet-stream").data = none :=
  (nonsuccess_data_none baseEnv "in"
    ⟨"error", "unsupported", none,
      "Tipo de arquivo não suportado: application/octet-stream"⟩ rfl).1 (by decide)
